import Mathlib

/-!
Verification development for the YouTube downloader repository.

This file gives a shallow embedding of the download-job controller found in
the repository (`YouTubeDownloaderApp.py`, `YouTubeDownload.py`,
`YT_DLP_Download.py`) and settles the frozen specification claims against it.

Conventions:
* Python lists/deques become Lean `List`s; `deque.append` appends on the
  right, `deque.pop()` removes the rightmost element (as in CPython).
* Machine state that a function mutates becomes an explicit state record
  threaded through the embedded function.
* Thread identity is modelled by an opaque `Nat` job identifier; a thread
  "is alive" exactly when its job is still in the `running` list of the
  model state.
-/

namespace App

/--
State of the Tk application scheduler in `YouTubeDownloaderApp.py`:
`threads` is the module-level `threads` list (bookkeeping entries, one per
thread object appended by `start_download_thread`, identified by the job id
the thread runs); `downloads_queue` is the module-level deque of queued job
ids (left end oldest); `running` is the set of jobs whose worker thread is
actually alive (started and not yet finished) — this is what
`thread.is_alive()` consults; `maximum_simultaneous_downloads` is the value
of the Tk `IntVar` of the same name.
-/
structure AppState where
  threads : List Nat
  downloads_queue : List Nat
  running : List Nat
  maximum_simultaneous_downloads : Nat
  deriving Repr, DecidableEq

/--
`start_download_thread` (`YouTubeDownloaderApp.py` lines 124-145):
`url = downloads_queue.pop()` removes the RIGHT end of the deque (the most
recently appended element); a new thread for that url is appended to
`threads` and started (so its job becomes alive/running).  Callers only
invoke this with a non-empty queue; on an empty queue CPython would raise
`IndexError`, modelled as `none`.
-/
def start_download_thread (s : AppState) : Option AppState :=
  match s.downloads_queue.getLast? with
  | none => none
  | some url =>
      some { s with
              downloads_queue := s.downloads_queue.dropLast
              threads := s.threads ++ [url]
              running := s.running ++ [url] }

/--
`add_dls_to_queue` (`YouTubeDownloaderApp.py` lines 77-121), for a valid
non-playlist url: the url is appended (right) to `downloads_queue`, and if
`len(threads) < maximum_simultaneous_downloads.get()` a download thread is
started immediately.
-/
def add_dls_to_queue (s : AppState) (url : Nat) : Option AppState :=
  let s := { s with downloads_queue := s.downloads_queue ++ [url] }
  if s.threads.length < s.maximum_simultaneous_downloads then
    start_download_thread s
  else
    some s

/--
CPython `del lst[idx]`: removes the element at `idx`, raising `IndexError`
(modelled as `none`) when `idx` is out of range.
-/
def pyDelIdx (l : List Nat) (i : Nat) : Option (List Nat) :=
  if i < l.length then some (l.eraseIdx i) else none

/--
The dead-thread cleanup loop of `update_threads`
(`YouTubeDownloaderApp.py` lines 179-182):

    for idx, thread in enumerate(list(threads)):
        if thread.is_alive() is False:
            del threads[idx]

The iteration enumerates a SNAPSHOT (`copy`) of the list while deleting by
index from the CURRENT list, so after a deletion the indices of the
snapshot and of the current list disagree.  `running` is the set of alive
jobs (`thread.is_alive()`).
-/
def clear_finished (threads running : List Nat) : Option (List Nat) :=
  let copy := threads
  (List.range copy.length).foldlM
    (fun cur idx =>
      match copy.get? idx with
      | some t => if t ∈ running then some cur else pyDelIdx cur idx
      | none => some cur)
    threads

/--
`update_threads` (`YouTubeDownloaderApp.py` lines 172-197): clears finished
threads with the snapshot/delete-by-index loop, then, if
`len(threads) < maximum_simultaneous_downloads.get()` and the queue is
non-empty, launches one more download thread.
-/
def update_threads (s : AppState) : Option AppState := do
  let ts ← clear_finished s.threads s.running
  let s := { s with threads := ts }
  if s.threads.length < s.maximum_simultaneous_downloads ∧
      s.downloads_queue ≠ [] then
    start_download_thread s
  else
    some s

/-- External events driving the scheduler model. -/
inductive Ev where
  /-- The user submits a url (a call to `add_dls_to_queue`). -/
  | submit (url : Nat)
  /-- The worker thread for job `url` finishes (its thread dies). -/
  | finish (url : Nat)
  /-- One `update_threads` timer tick fires. -/
  | tick
  deriving Repr, DecidableEq

/-- One scheduler step. -/
def stepEv (s : AppState) : Ev → Option AppState
  | .submit url => add_dls_to_queue s url
  | .finish url => some { s with running := s.running.erase url }
  | .tick => update_threads s

/-- Run a sequence of events from a state. -/
def runEvents (s : AppState) (evs : List Ev) : Option AppState :=
  evs.foldlM stepEv s

/-- The fresh scheduler state with pool capacity `n`. -/
def initState (n : Nat) : AppState :=
  { threads := [], downloads_queue := [], running := [],
    maximum_simultaneous_downloads := n }

end App

namespace YouTubeDownload

/-- Outcome of one `run_youtube_dl_download` call, as observed by the retry
loop in `start_yt_download` (`YouTubeDownload.py`): the download either
succeeds, or raises an exception whose message contains "HTTP Error 403"
(cache-staleness), or fails for any other reason. -/
inductive AttemptOutcome where
  | success
  | fail403
  | failOther
  deriving Repr, DecidableEq

/-- The instance state of `YouTubeDownload` that the retry loop reads and
writes: `failed_download_attempts` (initialised to 0 in `__init__`) and
`need_to_clear_download_cache` (initialised to `False` in `__init__`). -/
structure RetryState where
  failed_download_attempts : Nat
  need_to_clear_download_cache : Bool
  deriving Repr, DecidableEq

/-- The fresh state set up by `YouTubeDownload.__init__`. -/
def initRetryState : RetryState :=
  { failed_download_attempts := 0, need_to_clear_download_cache := false }

/-- `run_youtube_dl_download` (`YouTubeDownload.py` lines 237-319) as seen
by the retry loop: returns `True` on success; on an exception containing
"HTTP Error 403" it sets `self.need_to_clear_download_cache = True` and
returns `False`; on any other failure it returns `False`.  The
`need_to_clear_download_cache` flag is never reset anywhere in the class. -/
def run_youtube_dl_download (st : RetryState) (o : AttemptOutcome) :
    Bool × RetryState :=
  match o with
  | .success => (true, st)
  | .fail403 => (false, { st with need_to_clear_download_cache := true })
  | .failOther => (false, st)

/-- What the body of the `while True` loop decides to do after an attempt. -/
inductive LoopAction where
  /-- `break` (success) or `return False` (ceiling exceeded). -/
  | finish (ok : Bool)
  /-- The `elif ... need_to_clear_download_cache` branch: run
  `yt-dlp --rm-cache-dir` (the clearCache hook) and loop again, WITHOUT
  touching `failed_download_attempts`. -/
  | cacheClearRetry
  /-- The `else` branch: increment `failed_download_attempts`, delete
  `.part` files, and loop again. -/
  | countedRetry
  deriving Repr, DecidableEq

/-- One iteration of the `while True` loop of `start_yt_download`
(`YouTubeDownload.py` lines 54-84), given the outcome of this attempt:

    downloads_was_successful = self.run_youtube_dl_download(download_opts)
    if downloads_was_successful: break
    elif not downloads_was_successful and self.need_to_clear_download_cache:
        <clear cache>                      # no attempt counter increment
    else:
        self.failed_download_attempts += 1
        <delete .part files>
    if self.failed_download_attempts > 10:
        return False
-/
def loop_body (st : RetryState) (o : AttemptOutcome) :
    LoopAction × RetryState :=
  let (ok, st) := run_youtube_dl_download st o
  if ok then (.finish true, st)
  else
    let (act, st) :=
      if st.need_to_clear_download_cache then
        (LoopAction.cacheClearRetry, st)
      else
        (LoopAction.countedRetry,
         { st with failed_download_attempts := st.failed_download_attempts + 1 })
    if st.failed_download_attempts > 10 then (.finish false, st) else (act, st)

/-- The retry loop of `start_yt_download`, driven by the stream `outs` of
engine outcomes (`outs i` is the outcome of the `i`-th transfer attempt)
and bounded by `fuel` iterations.  Returns `some (result, final state)` if
the loop exits within `fuel` iterations and `none` if it is still looping
after `fuel` iterations. -/
def start_yt_download_loop :
    Nat → RetryState → (Nat → AttemptOutcome) → Nat →
    Option (Bool × RetryState)
  | 0, _, _, _ => none
  | fuel + 1, st, outs, i =>
      match loop_body st (outs i) with
      | (.finish b, st') => some (b, st')
      | (_, st') => start_yt_download_loop fuel st' outs (i + 1)

/--
The progress-value update performed by the `progress_hook` closure in
`run_youtube_dl_download` (`YouTubeDownload.py` lines 255-269) on a
`downloading` event whose percent string parsed to `val`:

    if (val > float(self.download_progress_str_var.get()) or
            float(self.download_progress_str_var.get()) == 100.0):
        self.download_progress_str_var.set(val)

`cur` is the currently stored value; percentages are modelled as rationals.
-/
def progress_update (cur val : ℚ) : ℚ :=
  if val > cur ∨ cur = 100 then val else cur

/-- The per-download mutable fields of `YouTubeDownload` that
`run_youtube_dl_download` and its progress hook touch:
`download_progress_str_var` (initialised to "0" in `__init__`, modelled as
a rational), `download_successful` and `output_file_path`. -/
structure ProgressState where
  download_progress : ℚ
  download_successful : Bool
  output_file_path : Option String
  deriving Repr, DecidableEq

/-- The attempt-start reset at the top of `run_youtube_dl_download`
(`YouTubeDownload.py` lines 246-248):

    # Reset state flags for each new download attempt
    self.download_successful = False
    self.output_file_path = None

Only these two fields are reset; `download_progress_str_var` is not
assigned anywhere at the start of an attempt, so the stored progress value
carries over from the previous attempt. -/
def attempt_reset (st : ProgressState) : ProgressState :=
  { st with download_successful := false, output_file_path := none }

end YouTubeDownload

namespace PyPath

/-- The characters after the last `/` of a character list (the whole list
when there is no `/`). -/
def afterLastSep (cs : List Char) : List Char :=
  cs.foldl (fun acc c => if c = '/' then [] else acc ++ [c]) []

/-- `os.path.basename` for forward-slash-separated paths: the part after
the last separator. -/
def basename (s : String) : String :=
  ⟨afterLastSep s.toList⟩

/-- `os.path.join dir name` for a relative `name`. -/
def joinPath (dir name : String) : String :=
  ⟨dir.toList ++ '/' :: name.toList⟩

/-- Python `str.strip()`: drop leading and trailing whitespace. -/
def pyStrip (s : String) : String :=
  ⟨(((s.toList.dropWhile Char.isWhitespace).reverse.dropWhile
      Char.isWhitespace).reverse)⟩

/-- Index of the last `.` in a character list, if any. -/
def lastDotIdx (cs : List Char) : Option Nat :=
  ((List.range cs.length).filter (fun i => cs.get? i = some '.')).getLast?

/-- `os.path.splitext(s)[0]` for a bare filename `s` (no separators): the
extension is everything from the last dot on, except that a name whose
characters before its last dot are all dots (e.g. `.bashrc`, `...`) has no
extension. -/
def splitext_root (s : String) : String :=
  let cs := s.toList
  match lastDotIdx cs with
  | none => s
  | some i => if (cs.take i).all (fun c => c = '.') then s else ⟨cs.take i⟩

end PyPath

namespace YouTubeDownload

/-- The `output_dir_files` list computed in `YouTubeDownload.__init__`
(`YouTubeDownload.py` lines 24-35): the destination directory's listing
with each entry replaced by
`os.path.splitext(os.path.basename(file))[0].strip()` — the
extension-stripped, whitespace-trimmed basename. -/
def output_dir_files (listing : List String) : List String :=
  listing.map (fun f => PyPath.pyStrip (PyPath.splitext_root (PyPath.basename f)))

/-- The condition under which `get_video_title`
(`YouTubeDownload.py` lines 205-211) raises the redownload prompt:

    if self.output_file_name in self.output_dir_files and
            self.redownload_video is None:

`output_file_name` is `ydl.prepare_filename(info)` (extension included);
`odf` is `output_dir_files`; `redownload_video` starts as `None`. -/
def collision_prompt_condition (output_file_name : String)
    (odf : List String) (redownload_video : Option Bool) : Bool :=
  odf.contains output_file_name && redownload_video.isNone

end YouTubeDownload

namespace YT_DLP_Download

/-- A file system slice: association list from path to file content. -/
abbrev FS := List (String × String)

/-- `os.path.exists` on the file-system slice. -/
def file_exists (fs : FS) (p : String) : Bool :=
  (fs.lookup p).isSome

/-- The Qt signals emitted by `YT_DLP_Download`, carrying primitive data. -/
inductive YEvent where
  | statusUpdated (msg : String)
  | promptOverwrite (path : String)
  | errorOccurred (path : String)
  | finishedSig (ok : Bool)
  deriving Repr, DecidableEq

/-- The expected collision path computed in `start_yt_download`
(`YT_DLP_Download.py` line 228):
`os.path.join(self.final_destination_dir, os.path.basename(prepared_name))`. -/
def expected_path (final_destination_dir prepared_name : String) : String :=
  PyPath.joinPath final_destination_dir (PyPath.basename prepared_name)

/-- Result of the collision-check section: the signals emitted, the file
system afterwards, and whether control proceeds to the download section. -/
structure CollisionStep where
  events : List YEvent
  fs : FS
  proceeds : Bool
  deriving Repr, DecidableEq

/-- The collision-check section of `start_yt_download`
(`YT_DLP_Download.py` lines 224-246):

    expected_path = os.path.join(self.final_destination_dir,
                                 os.path.basename(prepared_name))
    if os.path.exists(expected_path):
        allow = self._ask_overwrite_blocking(expected_path)   # emits prompt
        if not allow:
            self.status_updated.emit("Skipped (file exists)")
            self.finished.emit(False)
            return
        else:
            try: os.remove(expected_path)
            except: <error_occurred + finished(False); return>

`allow` is the decision eventually supplied to the blocking prompt;
`removeFails` models `os.remove` raising (e.g. permissions). -/
def collision_section (fs : FS) (final_destination_dir prepared_name : String)
    (allow removeFails : Bool) : CollisionStep :=
  let ep := expected_path final_destination_dir prepared_name
  if file_exists fs ep then
    if !allow then
      { events := [.promptOverwrite ep, .statusUpdated "Skipped (file exists)",
                   .finishedSig false],
        fs := fs, proceeds := false }
    else if removeFails then
      { events := [.promptOverwrite ep, .errorOccurred ep, .finishedSig false],
        fs := fs, proceeds := false }
    else
      { events := [.promptOverwrite ep],
        fs := fs.filter (fun kv => kv.1 != ep), proceeds := true }
  else
    { events := [], fs := fs, proceeds := true }

/-- Where the worker thread of one `YT_DLP_Download` object stands with
respect to its overwrite prompt. -/
inductive WStatus where
  /-- Executing normally (no outstanding prompt). -/
  | running
  /-- Blocked in `_ask_overwrite_blocking` on `ev.wait()`. -/
  | waitingPrompt
  /-- `_ask_overwrite_blocking` returned with this decision. -/
  | resumed (decision : Bool)
  deriving Repr, DecidableEq

/-- The per-object prompt/cancel state of `YT_DLP_Download`:
`_cancelled`, `_prompt_event` (is a live `threading.Event` installed?),
`_prompt_response`, and the worker's position. -/
structure PromptState where
  status : WStatus
  cancelled : Bool
  prompt_event_active : Bool
  prompt_response : Option Bool
  deriving Repr, DecidableEq

/-- The initial per-object state set up in `__init__`:
`self._cancelled = False`, `self._prompt_event = None`,
`self._prompt_response = None`. -/
def initPromptState : PromptState :=
  { status := .running, cancelled := false,
    prompt_event_active := false, prompt_response := none }

/-- Events touching one object's prompt state. -/
inductive PromptEv where
  /-- The worker calls `_ask_overwrite_blocking`
  (`YT_DLP_Download.py` lines 110-124): installs a fresh `Event`, clears
  the response, emits `prompt_overwrite`, and blocks on `ev.wait()`. -/
  | askOverwrite
  /-- The GUI calls `provide_overwrite_response(allow)`
  (`YT_DLP_Download.py` lines 103-108): if a prompt event is installed it
  records the response and sets the event, waking the worker, which reads
  the response, clears the slots and returns it; with no installed prompt
  event it is a no-op. -/
  | provideResponse (allow : Bool)
  /-- `cancel()` (`YT_DLP_Download.py` lines 280-283): sets
  `self._cancelled = True` and emits a status message.  It does not touch
  `_prompt_event`. -/
  | cancelReq
  deriving Repr, DecidableEq

/-- Apply one prompt event to one object's state. -/
def applyPromptEv (s : PromptState) : PromptEv → PromptState
  | .askOverwrite =>
      { s with status := .waitingPrompt, prompt_event_active := true,
               prompt_response := none }
  | .provideResponse allow =>
      if s.prompt_event_active then
        { s with status := .resumed allow, prompt_event_active := false,
                 prompt_response := none }
      else s
  | .cancelReq => { s with cancelled := true }

/-- Run a list of prompt events on one object. -/
def runPromptEvents (s : PromptState) (evs : List PromptEv) : PromptState :=
  evs.foldl applyPromptEv s

/-- A pool of worker objects, each with its own prompt state (each
`YT_DLP_Download` instance owns its own `_prompt_event`, `_prompt_lock`,
`_cancelled`); an event addressed to worker `i` only calls methods of
object `i`. -/
def poolApply (pool : List PromptState) (i : Nat) (e : PromptEv) :
    List PromptState :=
  match pool.get? i with
  | some s => pool.set i (applyPromptEv s e)
  | none => pool

/-- Status values yt-dlp passes to progress hooks. -/
inductive DStatus where
  | downloading
  | finishedStatus
  | otherStatus
  deriving Repr, DecidableEq

/-- The fields of the dict `d` that `_progress_hook` reads.  Byte counts
are integers; a missing key is `none`. -/
structure HookDict where
  status : DStatus
  downloaded_bytes : Option Int
  total_bytes : Option Int
  total_bytes_estimate : Option Int
  deriving Repr, DecidableEq

/-- Python `a or b` on optional integers: `a` when present and non-zero
(truthy), otherwise `b`. -/
def pyOrInt (a b : Option Int) : Option Int :=
  match a with
  | some v => if v = 0 then b else some v
  | none => b

/-- What the hook emits. -/
inductive HookEmit where
  /-- `self.progress_updated.emit(float(pct))`. -/
  | progressUpdated (pct : ℚ)
  /-- The percentage status message `f"<pct>% (<x> MB / <y> MB)"`. -/
  | statusPercent (pct downloadedMB totalMB : ℚ)
  /-- The unknown-total status message `f"Downloaded <x> MB"`. -/
  | statusUnknownTotal (downloadedMB : ℚ)
  /-- `"Download finished (processing)"`. -/
  | statusFinished
  deriving Repr, DecidableEq

/-- `_progress_hook` (`YT_DLP_Download.py` lines 80-100):

    if self._cancelled: raise RuntimeError("Download cancelled by user")
    status = d.get("status")
    if status == "downloading":
        downloaded = d.get("downloaded_bytes", 0) or 0
        total = d.get("total_bytes") or d.get("total_bytes_estimate")
        if total and total > 0:
            pct = downloaded / total * 100
            <emit progress_updated(pct) and the percentage status message>
        else:
            <emit "Downloaded <x> MB">
    elif status == "finished":
        <emit "Download finished (processing)">

Returns `none` when the hook raises (cancellation observed), otherwise the
list of emissions. -/
def progress_hook (cancelled : Bool) (d : HookDict) :
    Option (List HookEmit) :=
  if cancelled then none
  else
    match d.status with
    | .downloading =>
        let downloaded : Int := d.downloaded_bytes.getD 0
        let total : Option Int := pyOrInt d.total_bytes d.total_bytes_estimate
        match total with
        | some t =>
            if 0 < t then
              let pct : ℚ := (downloaded : ℚ) / (t : ℚ) * 100
              some [.progressUpdated pct,
                    .statusPercent pct ((downloaded : ℚ) / 1024 / 1024)
                      ((t : ℚ) / 1024 / 1024)]
            else
              some [.statusUnknownTotal ((downloaded : ℚ) / 1024 / 1024)]
        | none => some [.statusUnknownTotal ((downloaded : ℚ) / 1024 / 1024)]
    | .finishedStatus => some [.statusFinished]
    | .otherStatus => some []

/-- The engine's transfer invokes the progress hook at instants
`0, 1, ..., remaining - 1` (argument `i` is the index of the next hook);
`cancelAt` is the instant from which `self._cancelled` reads `True` (the
flag is set by `cancel()` between hook `cancelAt - 1` and hook `cancelAt`;
`cancelAt ≥ number of hooks` means it is set only after the final hook).
Returns `true` iff some hook observes the flag and raises. -/
def hook_loop : Nat → Nat → Nat → Bool
  | _, 0, _ => false
  | i, remaining + 1, cancelAt =>
      if cancelAt ≤ i then true else hook_loop (i + 1) remaining cancelAt

/-- The download section of `start_yt_download`
(`YT_DLP_Download.py` lines 248-273): runs
`ydl.extract_info(self.raw_url, download=True)`, during which the engine
calls `_progress_hook` `numHooks` times.  If a hook observes `_cancelled`
it raises `RuntimeError("Download cancelled by user")`, which the
`except` clause recognises (`isinstance(e, RuntimeError)` with "cancel" in
the message) and the job emits `status "Cancelled"`, `finished(False)`.
If no hook raises, the call returns and the job emits `finished(True)`,
`status "Completed"`. -/
def transfer_section (numHooks cancelAt : Nat) : List YEvent :=
  if hook_loop 0 numHooks cancelAt then
    [.statusUpdated "Cancelled", .finishedSig false]
  else
    [.finishedSig true, .statusUpdated "Completed"]

end YT_DLP_Download

/-! ## Helper lemmas -/

/-- With every attempt failing with HTTP 403, the retry loop of
`start_yt_download` never leaves the cache-clear branch: the attempt
counter stays put and the loop runs out of any fuel bound. -/
theorem YouTubeDownload.loop403_stuck (fuel : Nat) :
    ∀ (st : RetryState) (i : Nat),
      st.failed_download_attempts = 0 →
      start_yt_download_loop fuel st (fun _ => .fail403) i = none := by
  induction fuel with
  | zero => intro st i _; rfl
  | succ n ih =>
      intro st i h
      have hb : loop_body st .fail403 =
          (.cacheClearRetry, { st with need_to_clear_download_cache := true }) := by
        simp [loop_body, run_youtube_dl_download, h]
      simp only [start_yt_download_loop, hb]
      exact ih _ _ (by simp [h])

/-- No hook among the `remaining` hooks starting at index `i` observes a
cancellation that only becomes visible at index `cancelAt ≥ i + remaining`. -/
theorem YT_DLP_Download.hook_loop_no_cancel :
    ∀ (remaining i cancelAt : Nat), i + remaining ≤ cancelAt →
      hook_loop i remaining cancelAt = false := by
  intro remaining
  induction remaining with
  | zero => intro i c _; rfl
  | succ n ih =>
      intro i c h
      have hic : ¬ c ≤ i := by omega
      simp only [hook_loop, if_neg hic]
      exact ih (i + 1) c (by omega)

/-! ## Claims -/

/-- C1: refuted as stated; the code dispatches LIFO, not FIFO.  With pool
capacity 1, urls 1, 2, 3 submitted in that order: url 1 starts at once;
when its thread finishes and the `update_threads` tick fires, the job
dequeued and started is url 3 (`downloads_queue.pop()` removes the RIGHT,
most recently appended end of the deque) while the older url 2 is still
queued.  The final state is evaluated explicitly. -/
theorem C1_dispatch_is_lifo_not_fifo :
    App.runEvents (App.initState 1)
      [.submit 1, .submit 2, .submit 3, .finish 1, .tick] =
    some { threads := [3], downloads_queue := [2], running := [3],
           maximum_simultaneous_downloads := 1 } := by
  rfl

/-- C2: refuted as stated; the pool-capacity invariant can be exceeded.
With capacity 3 and seven submissions, jobs 1, 2, 3 run; after jobs 1 and
2 finish, the cleanup loop of `update_threads` (`del threads[idx]` while
enumerating a snapshot) also deletes the STILL-ALIVE thread of job 3 from
the bookkeeping list; three subsequent ticks then start jobs 7, 6, 5 while
job 3 is still running, so 4 jobs are simultaneously in non-`Queued`,
non-terminal states with capacity 3.  -/
theorem C2_pool_capacity_exceeded :
    App.runEvents (App.initState 3)
      [.submit 1, .submit 2, .submit 3, .submit 4, .submit 5, .submit 6,
       .submit 7, .finish 1, .finish 2, .tick, .tick, .tick] =
      some { threads := [7, 6, 5], downloads_queue := [4],
             running := [3, 7, 6, 5], maximum_simultaneous_downloads := 3 } ∧
    (App.initState 3).maximum_simultaneous_downloads <
      ([3, 7, 6, 5] : List Nat).length := by
  exact ⟨rfl, by decide⟩

/-- C3: refuted as stated; the retry loop is not bounded by the attempt
ceiling.  First conjunct: when every attempt fails with HTTP 403 (the
cache-staleness category), `need_to_clear_download_cache` is set and never
reset and the cache-clear branch never increments
`failed_download_attempts`, so the `while True` loop never terminates (for
every fuel bound it is still looping).  Second conjunct: with ordinary
failures on every attempt the loop exits only after 11 failed attempts
(`failed_download_attempts > 10`), not after the claimed maximum of 10. -/
theorem C3_retry_loop_not_bounded :
    (∀ fuel : Nat,
      YouTubeDownload.start_yt_download_loop fuel
        YouTubeDownload.initRetryState (fun _ => .fail403) 0 = none) ∧
    YouTubeDownload.start_yt_download_loop 20
        YouTubeDownload.initRetryState (fun _ => .failOther) 0 =
      some (false, { failed_download_attempts := 11,
                     need_to_clear_download_cache := false }) := by
  exact ⟨fun fuel => YouTubeDownload.loop403_stuck fuel _ 0 rfl, by rfl⟩

/-- C4 counterexample: every part of the in-attempt monotonicity claim
fails on the code.  First conjunct (stored value,
`YouTubeDownload.progress_hook`): within one attempt (one `ydl.download`
call, e.g. a video+audio merge), hook percentages 50, 100, 5 give stored
values 50, 100, then 5 — the value after the third invocation (5) is
smaller than after the second (100).  Second conjunct (emitted value,
`YT_DLP_Download._progress_hook`): two consecutive `downloading` events of
the same attempt — 100 of 100 bytes for the first file, then 10 of 200
bytes when `downloaded_bytes` restarts for the next file of the merge —
emit `progress_updated` percentages 100 then 5, a decrease.  Third
conjunct: the attempt-start reset does NOT reset the stored value to 0 —
a second attempt starts with the carried-over value 60 ≠ 0. -/
theorem C4_progress_decreases_within_attempt :
    (List.foldl YouTubeDownload.progress_update 0 [50, 100] = 100 ∧
     YouTubeDownload.progress_update
       (List.foldl YouTubeDownload.progress_update 0 [50, 100]) 5 = 5 ∧
     (5 : ℚ) < 100) ∧
    (YT_DLP_Download.progress_hook false
        ⟨.downloading, some 100, some 100, none⟩ =
       some [.progressUpdated 100,
             .statusPercent 100 ((100 : ℚ) / 1024 / 1024)
               ((100 : ℚ) / 1024 / 1024)] ∧
     YT_DLP_Download.progress_hook false
        ⟨.downloading, some 10, some 200, none⟩ =
       some [.progressUpdated 5,
             .statusPercent 5 ((10 : ℚ) / 1024 / 1024)
               ((200 : ℚ) / 1024 / 1024)]) ∧
    ((YouTubeDownload.attempt_reset
        ⟨60, true, some "tmp/f.mp4"⟩).download_progress = 60 ∧
     (60 : ℚ) ≠ 0) := by
  refine ⟨⟨by decide, by decide, by decide⟩, ⟨?_, ?_⟩, ⟨rfl, by decide⟩⟩ <;>
    norm_num [YT_DLP_Download.progress_hook, YT_DLP_Download.pyOrInt]

/-- C4 amended: (1) the stored progress value
(`YouTubeDownload.progress_hook`) is non-decreasing under an update as
long as it is not exactly 100; when it equals 100 the next update may
replace it with a smaller value (the counterexample's mid-attempt
decrease); (2) the attempt-start reset of `run_youtube_dl_download`
leaves the stored progress value unchanged — it is NOT reset to 0 at the
start of a new attempt; (3) the emitted percentage
(`YT_DLP_Download._progress_hook`) is recomputed per event as
`downloaded / total * 100` with no monotonicity clamp, so consecutive
emissions of the same attempt may decrease (the counterexample's emitted
decrease). -/
theorem C4_progress_nondecreasing_below_100 (cur val : ℚ)
    (st : YouTubeDownload.ProgressState) (d : YT_DLP_Download.HookDict)
    (t : Int) (h : cur ≠ 100) (hd : d.status = .downloading)
    (ht : YT_DLP_Download.pyOrInt d.total_bytes d.total_bytes_estimate =
            some t)
    (htpos : 0 < t) :
    cur ≤ YouTubeDownload.progress_update cur val ∧
    (YouTubeDownload.attempt_reset st).download_progress =
      st.download_progress ∧
    YT_DLP_Download.progress_hook false d =
      some [.progressUpdated
              (((d.downloaded_bytes.getD 0 : Int) : ℚ) / (t : ℚ) * 100),
            .statusPercent
              (((d.downloaded_bytes.getD 0 : Int) : ℚ) / (t : ℚ) * 100)
              (((d.downloaded_bytes.getD 0 : Int) : ℚ) / 1024 / 1024)
              ((t : ℚ) / 1024 / 1024)] := by
  refine ⟨?_, rfl, ?_⟩
  · unfold YouTubeDownload.progress_update
    split
    · rename_i hc
      rcases hc with hc | hc
      · exact le_of_lt hc
      · exact absurd hc h
    · exact le_refl cur
  · simp [YT_DLP_Download.progress_hook, hd, ht, htpos]

/-- Witness for `C4_progress_nondecreasing_below_100` at stored value 50,
update 30, an attempt-start state carrying progress 60, and a
`downloading` event of 10 of 200 bytes. -/
theorem C4_progress_nondecreasing_below_100_witness :
    (50 : ℚ) ≠ 100 ∧
    (0 : Int) < 200 ∧
    ((50 : ℚ) ≤ YouTubeDownload.progress_update 50 30 ∧
     (YouTubeDownload.attempt_reset
        ⟨60, true, some "tmp/f.mp4"⟩).download_progress =
       (⟨60, true, some "tmp/f.mp4"⟩ :
          YouTubeDownload.ProgressState).download_progress ∧
     YT_DLP_Download.progress_hook false
        ⟨.downloading, some 10, some 200, none⟩ =
       some [.progressUpdated (((10 : Int) : ℚ) / ((200 : Int) : ℚ) * 100),
             .statusPercent (((10 : Int) : ℚ) / ((200 : Int) : ℚ) * 100)
               (((10 : Int) : ℚ) / 1024 / 1024)
               (((200 : Int) : ℚ) / 1024 / 1024)]) :=
  ⟨by decide, by decide,
   C4_progress_nondecreasing_below_100 50 30 ⟨60, true, some "tmp/f.mp4"⟩
     ⟨.downloading, some 10, some 200, none⟩ 200
     (by decide) rfl rfl (by decide)⟩

/-- C5: confirmed.  If a file exists at the expected final path and the
collision decision is Skip (`allow = False`), the job emits
"Skipped (file exists)" and `finished(False)` (the Skipped terminal
state), control does not proceed to the download, and the file system —
including the pre-existing file's content — is returned unchanged. -/
theorem C5_skip_leaves_file_untouched (fs : YT_DLP_Download.FS)
    (d n : String) (removeFails : Bool)
    (h : YT_DLP_Download.file_exists fs
          (YT_DLP_Download.expected_path d n) = true) :
    YT_DLP_Download.collision_section fs d n false removeFails =
      { events := [.promptOverwrite (YT_DLP_Download.expected_path d n),
                   .statusUpdated "Skipped (file exists)",
                   .finishedSig false],
        fs := fs, proceeds := false } := by
  unfold YT_DLP_Download.collision_section
  simp [h]

/-- Witness for `C5_skip_leaves_file_untouched` on a one-file file
system. -/
theorem C5_skip_leaves_file_untouched_witness :
    YT_DLP_Download.file_exists [("dest/Video.mp4", "bytes")]
        (YT_DLP_Download.expected_path "dest" "Video.mp4") = true ∧
    YT_DLP_Download.collision_section [("dest/Video.mp4", "bytes")]
        "dest" "Video.mp4" false false =
      { events := [.promptOverwrite
                     (YT_DLP_Download.expected_path "dest" "Video.mp4"),
                   .statusUpdated "Skipped (file exists)",
                   .finishedSig false],
        fs := [("dest/Video.mp4", "bytes")], proceeds := false } :=
  ⟨rfl, C5_skip_leaves_file_untouched [("dest/Video.mp4", "bytes")]
      "dest" "Video.mp4" false rfl⟩

/-- C6 counterexample: the claim's biconditional "prompt raised iff a file
exists at exactly the expected final path" fails on the `YouTubeDownload`
variant.  The destination directory contains exactly the prepared filename
`Video.mp4` — a file exists at exactly the expected final path
`dest/Video.mp4` — yet `get_video_title` raises no prompt, because it
compares the full prepared filename (with extension) against the
extension-stripped basenames of the directory listing. -/
theorem C6_collision_not_exact_path :
    YT_DLP_Download.file_exists [("dest/Video.mp4", "bytes")]
        (YT_DLP_Download.expected_path "dest" "Video.mp4") = true ∧
    YouTubeDownload.collision_prompt_condition "Video.mp4"
        (YouTubeDownload.output_dir_files ["Video.mp4"]) none = false :=
  ⟨rfl, rfl⟩

/-- C6 amended: in the `YT_DLP_Download` variant the collision prompt is
raised iff a file exists at exactly the computed expected final path
(exact-path equality, no fuzzy match, no size threshold), independently of
the decision or of `os.remove` failing; in the `YouTubeDownload` variant,
the check instead compares the prepared output filename against the
extension-stripped, trimmed basenames of the destination listing taken at
construction, so a file present under exactly the expected name raises no
prompt whenever stripping its extension (and trimming) changes the name. -/
theorem C6_amended_collision_detection (fs : YT_DLP_Download.FS)
    (d n : String) (allow removeFails : Bool) (f : String) (rd : Option Bool)
    (hf : PyPath.pyStrip (PyPath.splitext_root (PyPath.basename f)) ≠ f) :
    (YT_DLP_Download.YEvent.promptOverwrite (YT_DLP_Download.expected_path d n) ∈
        (YT_DLP_Download.collision_section fs d n allow removeFails).events ↔
      YT_DLP_Download.file_exists fs (YT_DLP_Download.expected_path d n) = true) ∧
    YouTubeDownload.collision_prompt_condition f
        (YouTubeDownload.output_dir_files [f]) rd = false := by
  constructor
  · unfold YT_DLP_Download.collision_section
    by_cases hex : YT_DLP_Download.file_exists fs
        (YT_DLP_Download.expected_path d n) = true
    · cases allow <;> cases removeFails <;> simp [hex]
    · simp [hex, Bool.not_eq_true] at hex ⊢
  · have hne : (f ==
        PyPath.pyStrip (PyPath.splitext_root (PyPath.basename f))) = false := by
      rw [beq_eq_false_iff_ne]
      exact fun h => hf h.symm
    simp [YouTubeDownload.collision_prompt_condition,
      YouTubeDownload.output_dir_files, List.contains, List.elem, hne]

/-- Witness for `C6_amended_collision_detection` at the concrete filename
`Video.mp4`. -/
theorem C6_amended_collision_detection_witness :
    PyPath.pyStrip (PyPath.splitext_root (PyPath.basename "Video.mp4")) ≠
        "Video.mp4" ∧
    ((YT_DLP_Download.YEvent.promptOverwrite
        (YT_DLP_Download.expected_path "dest" "Video.mp4") ∈
        (YT_DLP_Download.collision_section [("dest/Video.mp4", "x")]
          "dest" "Video.mp4" true false).events ↔
      YT_DLP_Download.file_exists [("dest/Video.mp4", "x")]
        (YT_DLP_Download.expected_path "dest" "Video.mp4") = true) ∧
     YouTubeDownload.collision_prompt_condition "Video.mp4"
       (YouTubeDownload.output_dir_files ["Video.mp4"]) none = false) :=
  ⟨by decide,
   C6_amended_collision_detection [("dest/Video.mp4", "x")] "dest" "Video.mp4"
     true false "Video.mp4" none (by decide)⟩

/-- C7 counterexample: a `cancel()` call while a job awaits its collision
decision does NOT end the wait.  After `_ask_overwrite_blocking` installs
the prompt and blocks, `cancel()` only sets `_cancelled`; the worker is
still blocked on `ev.wait()` (status remains `waitingPrompt`) because
nothing sets the prompt event. -/
theorem C7_cancel_does_not_end_wait :
    YT_DLP_Download.runPromptEvents YT_DLP_Download.initPromptState
      [.askOverwrite, .cancelReq] =
    { status := .waitingPrompt, cancelled := true,
      prompt_event_active := true, prompt_response := none } := rfl

/-- C7 amended: while a job awaits a collision decision, only that job's
own execution path is blocked (an event addressed to one worker object
leaves every other worker's state unchanged), and the wait ends exactly
when a decision is provided for that job via
`provide_overwrite_response`, resuming with that decision; `cancel()`
sets the cancelled flag but never changes the worker's wait status, so it
does not short-circuit the wait. -/
theorem C7_amended_wait_ends_only_on_decision
    (s : YT_DLP_Download.PromptState) (b : Bool)
    (pool : List YT_DLP_Download.PromptState) (i j : Nat)
    (e : YT_DLP_Download.PromptEv)
    (hp : s.prompt_event_active = true) (hij : j ≠ i) :
    (YT_DLP_Download.applyPromptEv s .cancelReq).status = s.status ∧
    (YT_DLP_Download.applyPromptEv s (.provideResponse b)).status =
      .resumed b ∧
    (YT_DLP_Download.poolApply pool i e)[j]? = pool[j]? := by
  refine ⟨rfl, ?_, ?_⟩
  · simp [YT_DLP_Download.applyPromptEv, hp]
  · unfold YT_DLP_Download.poolApply
    cases pool.get? i with
    | none => rfl
    | some s' => exact List.getElem?_set_ne (fun h => hij h.symm)

/-- Witness for `C7_amended_wait_ends_only_on_decision` on a worker with
an outstanding prompt and a two-worker frame check. -/
theorem C7_amended_wait_ends_only_on_decision_witness :
    (⟨.waitingPrompt, false, true, none⟩ :
        YT_DLP_Download.PromptState).prompt_event_active = true ∧
    (1 : Nat) ≠ 0 ∧
    ((YT_DLP_Download.applyPromptEv ⟨.waitingPrompt, false, true, none⟩
        .cancelReq).status = (⟨.waitingPrompt, false, true, none⟩ :
          YT_DLP_Download.PromptState).status ∧
     (YT_DLP_Download.applyPromptEv ⟨.waitingPrompt, false, true, none⟩
        (.provideResponse true)).status = .resumed true ∧
     (YT_DLP_Download.poolApply [YT_DLP_Download.initPromptState] 0
        .cancelReq)[1]? = [YT_DLP_Download.initPromptState][1]?) :=
  ⟨rfl, by decide,
   C7_amended_wait_ends_only_on_decision ⟨.waitingPrompt, false, true, none⟩
     true [YT_DLP_Download.initPromptState] 0 1 .cancelReq rfl (by decide)⟩

/-- C8: confirmed.  Whenever a transfer attempt fails with an HTTP 403 /
access-denied class error (the cache-staleness category), the failure sets
`need_to_clear_download_cache`, and — provided the attempt ceiling has not
already been exceeded — the loop takes the cache-clear branch: it invokes
the cache-invalidation hook (`yt-dlp --rm-cache-dir`) and retries, i.e.
such a failure is treated as retryable with `clearCache` invoked before
the retry transition. -/
theorem C8_403_clears_cache_and_retries (st : YouTubeDownload.RetryState)
    (h : st.failed_download_attempts ≤ 10) :
    YouTubeDownload.loop_body st .fail403 =
      (.cacheClearRetry, { st with need_to_clear_download_cache := true }) := by
  have h10 : ¬ st.failed_download_attempts > 10 := by omega
  simp [YouTubeDownload.loop_body, YouTubeDownload.run_youtube_dl_download, h10]

/-- Witness for `C8_403_clears_cache_and_retries` at the fresh state. -/
theorem C8_403_clears_cache_and_retries_witness :
    YouTubeDownload.initRetryState.failed_download_attempts ≤ 10 ∧
    YouTubeDownload.loop_body YouTubeDownload.initRetryState .fail403 =
      (.cacheClearRetry,
       { failed_download_attempts := 0,
         need_to_clear_download_cache := true }) :=
  ⟨by decide, C8_403_clears_cache_and_retries _ (by decide)⟩

/-- C9: confirmed.  On a `downloading` progress event whose total byte
count is missing or zero (both `total_bytes` and `total_bytes_estimate`
absent or zero), `_progress_hook` returns normally (no crash), performs
the else-branch that contains no division by the total, and emits exactly
the unknown-total status message `"Downloaded <x> MB"` — no
`progress_updated` percentage emission. -/
theorem C9_zero_total_no_percentage (d : YT_DLP_Download.HookDict)
    (h1 : d.status = .downloading)
    (h2 : d.total_bytes = none ∨ d.total_bytes = some 0)
    (h3 : d.total_bytes_estimate = none ∨ d.total_bytes_estimate = some 0) :
    YT_DLP_Download.progress_hook false d =
      some [.statusUnknownTotal
              (((d.downloaded_bytes.getD 0 : Int) : ℚ) / 1024 / 1024)] := by
  unfold YT_DLP_Download.progress_hook YT_DLP_Download.pyOrInt
  rcases h2 with h2 | h2 <;> rcases h3 with h3 | h3 <;>
    simp [h1, h2, h3]

/-- Witness for `C9_zero_total_no_percentage` on an event with 5000000
downloaded bytes, a missing `total_bytes` and a zero
`total_bytes_estimate`. -/
theorem C9_zero_total_no_percentage_witness :
    (⟨.downloading, some 5000000, none, some 0⟩ :
        YT_DLP_Download.HookDict).status = .downloading ∧
    YT_DLP_Download.progress_hook false
        ⟨.downloading, some 5000000, none, some 0⟩ =
      some [.statusUnknownTotal (((5000000 : Int) : ℚ) / 1024 / 1024)] :=
  ⟨rfl, C9_zero_total_no_percentage ⟨.downloading, some 5000000, none, some 0⟩
     rfl (Or.inl rfl) (Or.inr rfl)⟩

/-- C10: confirmed.  Cancellation is observed only inside
`_progress_hook`; if the `_cancelled` flag becomes visible only at an
instant at or after the final progress-hook invocation of the transfer
(e.g. it is set during merging/post-processing or just before
completion), no hook raises, `extract_info` returns normally, and the job
terminates with `finished(True)` and status `"Completed"` — not as
Cancelled. -/
theorem C10_cancel_after_final_hook_still_succeeds
    (numHooks cancelAt : Nat) (h : numHooks ≤ cancelAt) :
    YT_DLP_Download.transfer_section numHooks cancelAt =
      [.finishedSig true, .statusUpdated "Completed"] := by
  unfold YT_DLP_Download.transfer_section
  rw [YT_DLP_Download.hook_loop_no_cancel numHooks 0 cancelAt (by omega)]
  rfl

/-- Witness for `C10_cancel_after_final_hook_still_succeeds` with three
hook invocations and the cancel flag set right after the last one. -/
theorem C10_cancel_after_final_hook_still_succeeds_witness :
    (3 : Nat) ≤ 3 ∧
    YT_DLP_Download.transfer_section 3 3 =
      [.finishedSig true, .statusUpdated "Completed"] :=
  ⟨by decide, C10_cancel_after_final_hook_still_succeeds 3 3 (by decide)⟩
